import Mathlib

/-!
Shallow embedding of the `amina_core` service runtime (service container,
call dispatcher, event bus, task manager) and proofs of the spec claims.

Sources embedded:
  * `src/amina_core/src/rpc/mod.rs`   — call dispatcher (`Rpc`)
  * `src/amina_core/src/events.rs`    — event bus (`EventEmitter`)
  * `src/amina_core/src/service.rs`   — service container (`Context`)
  * `src/amina_core/src/tasks.rs`     — task manager (`TaskManager`)

Conventions of the embedding:
  * serde's `serialize`/`deserialize` at a Rust type `T` are abstracted as
    explicit functions `ser : T → String` and `deser : String → Option T`
    (`none` = serde error, which the source `unwrap`s into a panic);
  * a Rust panic is `Except.error ()`;
  * effectful callbacks (RPC handlers writing logs, event listeners, service
    start/stop hooks) are modelled by the trace of observable calls they make;
  * the `RwLock<HashMap<..>>` tables are modelled as functions `key → Option v`
    with pointwise update (the observable behaviour of `HashMap::insert`/`get`).
-/

/-! ## Call dispatcher: `src/amina_core/src/rpc/mod.rs` -/

/-- Observable outcome of one `call_raw` invocation (or of one stored handler
call): the log lines emitted via `log::error!` and either the returned payload
(`Except.ok`) or a panic (`Except.error ()`, from `.unwrap()` on a serde
error). -/
structure CallOutcome where
  log : List String
  result : Except Unit String
  deriving Repr

/-- `Listener` of rpc/mod.rs: the boxed, type-erased `Fn(&str) -> String`
wrapper stored in the dispatch table.  A call may panic, and may log. -/
structure RpcListener where
  handler : String → CallOutcome

/-- `Rpc`: the keyed handler table `calls: RwLock<HashMap<String, Listener>>`
(the parallel `get_file_calls` table is not needed by any claim). -/
structure Rpc where
  calls : String → Option RpcListener

/-- `Rpc::new`. -/
def Rpc.new : Rpc := { calls := fun _ => none }

/-- `Rpc::add_raw_listener`: `HashMap::insert`, replacing any previous entry
under the same key. -/
def Rpc.add_raw_listener (rpc : Rpc) (key : String) (listener : RpcListener) : Rpc :=
  { calls := fun k => if k = key then some listener else rpc.calls k }

/-- The `handler_wrapper` closure built by `Rpc::on_generic_call_fn`:
deserialize the input (on serde failure, `log::error!("Invalid input req: ..")`
and then panic on `.unwrap()`); otherwise run the typed handler and serialize
its output. -/
def handler_wrapper {I O : Type} (deserI : String → Option I) (serO : O → String)
    (f : I → O) : String → CallOutcome :=
  fun input_data =>
    match deserI input_data with
    | none => { log := ["Invalid input req: " ++ input_data], result := .error () }
    | some input_value => { log := [], result := .ok (serO (f input_value)) }

/-- `Rpc::on_generic_call_fn`: wrap the typed handler and register it. -/
def Rpc.on_generic_call_fn {I O : Type} (rpc : Rpc) (key : String)
    (deserI : String → Option I) (serO : O → String) (f : I → O) : Rpc :=
  rpc.add_raw_listener key { handler := handler_wrapper deserI serO f }

/-- The literal `String::from("{ }")` returned by `call_raw` for an unknown
key (braces written with escapes). -/
def emptyCallResponse : String := "\x7b \x7d"

/-- `Rpc::call_raw`: look up the handler by key and run it; absent key yields
the neutral `"{ }"` payload with no log and no panic. -/
def Rpc.call_raw (rpc : Rpc) (key : String) (input_data : String) : CallOutcome :=
  match rpc.calls key with
  | some listener => listener.handler input_data
  | none => { log := [], result := .ok emptyCallResponse }

/-! ## A concrete executable codec, used by the witnesses.

Unary encoding of naturals: `n` is serialized as `n` copies of `'1'`;
deserialization fails on any string containing another character. -/

/-- Witness codec: serialize a natural in unary. -/
def unarySer (n : Nat) : String := String.mk (List.replicate n '1')

/-- Witness codec: deserialize a unary string; fails on non-`'1'`
characters. -/
def unaryDeser (s : String) : Option Nat :=
  if s.data.all (fun c => c = '1') then some s.data.length else none

/-! ## Task manager: `src/amina_core/src/tasks.rs`

Jobs are modelled by the trace (`List String`) of observable calls they make;
a job receives a `TaskContext` carrying the cooperative cancellation flag. -/

/-- `TaskContext`: the cooperative cancellation flag (`AtomicBool`), modelled
as an immutable snapshot; mutation is explicit state passing. -/
structure TaskContext where
  is_interrupted : Bool
  deriving Repr, DecidableEq

/-- `TaskContext::new`: starts not interrupted. -/
def TaskContext.new : TaskContext := { is_interrupted := false }

/-- `TaskContext::stop`: store `true` into the flag. -/
def TaskContext.stop (_c : TaskContext) : TaskContext := { is_interrupted := true }

/-- `TaskContext::is_interrupted`: read the flag. -/
def TaskContext.isInterrupted (c : TaskContext) : Bool := c.is_interrupted

/-- A job submitted to `run_instant_task`: it is handed a `TaskContext` and
its execution produces a trace. -/
def InstantJob : Type := TaskContext → List String

/-- `TaskManager`: the registry `tasks: RwLock<Vec<Arc<TaskContext>>>` of
tracked task contexts, in submission (registry) order.  The worker pool for
instant jobs holds no observable state and is not represented. -/
structure TaskManager where
  tasks : List TaskContext

/-- The `TaskManager` built by its `ServiceInitializer` impl: empty
registry. -/
def TaskManager.new : TaskManager := { tasks := [] }

/-- `<TaskManager as ServiceApi>::stop`: iterate the registry in order and
call `stop()` on each tracked context; nothing is removed and no job is
awaited. -/
def TaskManager.stop (tm : TaskManager) : TaskManager :=
  { tasks := tm.tasks.map TaskContext.stop }

/-- `TaskManager::run`: allocate a fresh context, push it into the registry,
and spawn the job on its own thread.  Returns the new manager state together
with the context handed to the spawned job. -/
def TaskManager.run (tm : TaskManager) : TaskManager × TaskContext :=
  ({ tasks := tm.tasks ++ [TaskContext.new] }, TaskContext.new)

/-- `TaskManager::run_instant_task`: execute the job on the pool with a
fresh, untracked `TaskContext::new()`; the registry is untouched.  Returns
the (unchanged) manager state and the job's trace. -/
def TaskManager.run_instant_task (tm : TaskManager) (job : InstantJob) :
    TaskManager × List String :=
  (tm, job TaskContext.new)

/-! ## Event bus: `src/amina_core/src/events.rs`

Observers are opaque `Fn(&str, &str)` callbacks; each is modelled by an
identity (`Nat`), and an invocation is recorded as `(identity, key, data)`.
A stored listener is the type-erased `handler_wrapper` built by
`on_generic_event_fn`: applied to the raw payload on the **emitting** thread,
it either panics (`Except.error ()`, the `.unwrap()` on a serde error) or
submits one deferred job to the task manager. -/

/-- `Listener` of events.rs: the boxed `Fn(&str)` wrapper.  Its observable
effect on the emitting thread is a panic or one submitted instant job. -/
structure EvListener where
  handler : String → Except Unit InstantJob

/-- `EventEmitter`: keyed listener table and observer list (each behind an
`RwLock` in the source). -/
structure EventEmitter where
  events : String → Option (List EvListener)
  observers : List Nat

/-- The `EventEmitter` built by its `ServiceInitializer` impl: empty tables. -/
def EventEmitter.new : EventEmitter :=
  { events := fun _ => none, observers := [] }

/-- The `handler_wrapper` closure built by `EventEmitter::on_generic_event_fn`:
decode the payload right here (panicking on failure via `.unwrap()`), then
submit `run_instant_task(move |_| handler(&value))` — the deferred job runs
the user handler on the already-decoded value and ignores its fresh
context. -/
def event_handler_wrapper {E : Type} (deserE : String → Option E)
    (handler : E → List String) : String → Except Unit InstantJob :=
  fun event_data =>
    match deserE event_data with
    | none => .error ()
    | some value => .ok (fun _ => handler value)

/-- `EventEmitter::add_raw_listener`: append to the key's vector, creating a
singleton vector for a fresh key. -/
def EventEmitter.add_raw_listener (em : EventEmitter) (key : String)
    (listener : EvListener) : EventEmitter :=
  { em with
    events := fun k =>
      if k = key then
        match em.events k with
        | some handlers => some (handlers ++ [listener])
        | none => some [listener]
      else em.events k }

/-- `EventEmitter::on_generic_event_fn`: wrap the typed handler and register
it under `key`. -/
def EventEmitter.on_generic_event_fn {E : Type} (em : EventEmitter) (key : String)
    (deserE : String → Option E) (handler : E → List String) : EventEmitter :=
  em.add_raw_listener key { handler := event_handler_wrapper deserE handler }

/-- `EventEmitter::add_raw_observer`: push the observer (identified by `o`)
onto the observer vector. -/
def EventEmitter.add_raw_observer (em : EventEmitter) (o : Nat) : EventEmitter :=
  { em with observers := em.observers ++ [o] }

/-- The loop body of `send_raw_event`: call each stored wrapper in
registration order with the raw payload.  Returns the jobs submitted to the
task manager before any panic, and whether a wrapper panicked (aborting the
iteration — wrappers after the failing one are not called). -/
def runListeners : List EvListener → String → List InstantJob × Bool
  | [], _ => ([], false)
  | l :: rest, event_data =>
    match l.handler event_data with
    | .error _ => ([], true)
    | .ok job =>
      let r := runListeners rest event_data
      (job :: r.1, r.2)

/-- `EventEmitter::send_raw_event`: look up the key's listeners and run each
wrapper in registration order; a key with no entry does nothing. -/
def EventEmitter.send_raw_event (em : EventEmitter) (key event_data : String) :
    List InstantJob × Bool :=
  match em.events key with
  | some listeners => runListeners listeners event_data
  | none => ([], false)

/-- `EventEmitter::send_to_observers`: invoke every observer, in registration
order, on the emitting thread, with the key and the raw payload. -/
def EventEmitter.send_to_observers (em : EventEmitter) (key event_data : String) :
    List (Nat × String × String) :=
  em.observers.map (fun o => (o, key, event_data))

/-- Observable outcome of one `emit` on the emitting thread: the deferred
jobs submitted to the task manager, the synchronous observer invocations
performed before `emit` returns, and whether the emitting thread panicked
(in which case `emit` never returns and everything after the panic point is
skipped). -/
structure EmitOutcome where
  submitted : List InstantJob
  observerCalls : List (Nat × String × String)
  panicked : Bool

/-- `EventEmitter::emit`: serialize the value once, run `send_raw_event`
(listener wrappers, synchronously), then `send_to_observers`.  A wrapper
panic propagates on the emitting thread: the observer loop is never
reached. -/
def EventEmitter.emit {α : Type} (em : EventEmitter) (key : String)
    (ser : α → String) (value : α) : EmitOutcome :=
  let event_data := ser value
  let r := em.send_raw_event key event_data
  if r.2 then { submitted := r.1, observerCalls := [], panicked := true }
  else
    { submitted := r.1
      observerCalls := em.send_to_observers key event_data
      panicked := false }

/-- `EventEmitter::emit_event`: textually duplicated body of `emit`, with the
key obtained from the event type's `Event::get_key()` (passed here as
`get_key`). -/
def EventEmitter.emit_event {α : Type} (em : EventEmitter) (get_key : String)
    (ser : α → String) (value : α) : EmitOutcome :=
  let event_data := ser value
  let key := get_key
  let r := em.send_raw_event key event_data
  if r.2 then { submitted := r.1, observerCalls := [], panicked := true }
  else
    { submitted := r.1
      observerCalls := em.send_to_observers key event_data
      panicked := false }

/-! ## Service container: `src/amina_core/src/service.rs`

A `dyn ServiceApi` object is modelled by the traces its `start`/`stop` hooks
produce when invoked; the trait's default hooks do nothing, so the default
field values are empty traces.  `TypeId` is modelled as `Nat`, and `Arc`
instance identity as a `Nat` tag, so that "same instance" is expressible. -/

/-- A `dyn ServiceApi` vtable: the observable traces of the two lifecycle
hooks.  A service that does not override a hook keeps the default (no-op,
empty trace). -/
structure ServiceApiM where
  startTrace : List String := []
  stopTrace : List String := []
  deriving Repr, DecidableEq

/-- One registered service: its static type identity (`TypeId::of::<S>()`),
its `Arc` instance identity, and its hooks.  The source's `ServiceWrapper`
(map side) and `Arc<dyn ServiceApi>` (order side) both refer to this same
entry. -/
structure ServiceEntry where
  tid : Nat
  instanceId : Nat
  api : ServiceApiM
  deriving Repr, DecidableEq

/-- `Context`: the type-keyed lookup map `services` plus the registration
sequence `services_order` (used only for start/stop). -/
structure Context where
  services : Nat → Option ServiceEntry
  services_order : List ServiceEntry

/-- `Context::new`: empty registry. -/
def Context.new : Context :=
  { services := fun _ => none, services_order := [] }

/-- `Context::add_service_internal`: `HashMap::insert` under the type
identity (silently replacing any previous entry) and push onto the ordered
sequence (never removing anything). -/
def Context.add_service_internal (ctx : Context) (e : ServiceEntry) : Context :=
  { services := fun t => if t = e.tid then some e else ctx.services t
    services_order := ctx.services_order ++ [e] }

/-- `Context::get_service`: lookup by type identity (the source `unwrap`s an
absent entry into a panic; the claims only need the looked-up value). -/
def Context.get_service (ctx : Context) (tid : Nat) : Option ServiceEntry :=
  ctx.services tid

/-- `Context::start`: invoke each registered entry's start hook in
registration order; the result is the concatenated trace. -/
def Context.start (ctx : Context) : List String :=
  ctx.services_order.foldl (fun trace e => trace ++ e.api.startTrace) []

/-- `Context::stop`: invoke each entry's stop hook in reverse registration
order (`.iter().rev()`). -/
def Context.stop (ctx : Context) : List String :=
  ctx.services_order.reverse.foldl (fun trace e => trace ++ e.api.stopTrace) []

/-! ## Async call bridge: `AsyncHandler` of `src/amina_core/src/rpc/mod.rs`

`on_generic_call_async` creates a capacity-1 request channel and a capacity-1
response channel; each is modelled as an `Option` buffer (`none` = empty).
The caller-side wrapper (under its mutex) decodes the payload, sends the
request, and blocks reading the response; the driver repeatedly invokes the
non-blocking `try_handle`. -/

/-- The rendezvous state of one externally-polled key: the capacity-1
request and response buffers. -/
structure AsyncChanState (I O : Type) where
  req : Option I
  resp : Option O
  deriving Repr, DecidableEq

/-- `AsyncHandler::try_handle`: `try_recv` the request buffer; on `Err` do
nothing; on `Ok` run the closure and `send` the response (`none` result =
the send blocks forever on a full response buffer — unreachable under the
wrapper's mutex protocol). -/
def AsyncHandler.try_handle {I O : Type} (f : I → O) (s : AsyncChanState I O) :
    Option (AsyncChanState I O) :=
  match s.req with
  | none => some s
  | some req =>
    match s.resp with
    | none => some { req := none, resp := some (f req) }
    | some _ => none

/-- The driver invoking `try_handle` `n` times in a row. -/
def pollDriver {I O : Type} (f : I → O) : Nat → AsyncChanState I O → Option (AsyncChanState I O)
  | 0, s => some s
  | n + 1, s => (AsyncHandler.try_handle f s).bind (pollDriver f n)

/-- Outcome of a `call_raw` against an externally-polled key, at a horizon of
finitely many driver steps: the caller panicked decoding, is still blocked
(no response yet — `recv` waits), or completed with a payload. -/
inductive AsyncCallResult where
  | panicked
  | blocked
  | completed (out : String)
  deriving Repr, DecidableEq

/-- The round trip of the `handler_wrapper` built by
`Rpc::on_generic_call_async`, with `polls` driver steps interleaved between
the request `send` and the response `recv`: lock the (fresh, empty)
rendezvous pair, decode the payload (panic on failure), `send` the request
into the empty capacity-1 buffer, let the driver run, then `recv` — blocked
unless a response was published. -/
def async_call_raw {I O : Type} (deserI : String → Option I) (serO : O → String)
    (f : I → O) (polls : Nat) (input_data : String) : AsyncCallResult :=
  match deserI input_data with
  | none => .panicked
  | some input_value =>
    match pollDriver f polls { req := some input_value, resp := none } with
    | none => .blocked
    | some s =>
      match s.resp with
      | some output_value => .completed (serO output_value)
      | none => .blocked

/-! ## Helper lemmas -/

/-- Driver steps are no-ops once the request buffer is empty. -/
theorem pollDriver_no_request {I O : Type} (f : I → O) (n : Nat) (r : Option O) :
    pollDriver f n { req := none, resp := r } = some { req := none, resp := r } := by
  induction n with
  | zero => rfl
  | succ n ih => simpa [pollDriver, AsyncHandler.try_handle] using ih

/-- Folding registrations over a context appends them, in order, to the
ordered start/stop sequence. -/
theorem foldl_add_service_order (regs : List ServiceEntry) (ctx : Context) :
    (regs.foldl Context.add_service_internal ctx).services_order
      = ctx.services_order ++ regs := by
  induction regs generalizing ctx with
  | nil => simp
  | cons e rest ih =>
    simp [List.foldl_cons, ih, Context.add_service_internal]

/-! ## Claims C1, C2, C8 -/

/-- Claim C1: for every sync handler `f` registered via `on_generic_call_fn`
under key `k`, and every input `x` that serializes and deserializes cleanly at
the handler's input type (`deserI (serI x) = some x`), `call_raw k (serI x)`
returns `serO (f x)` — no log, no panic. -/
theorem claim_C1_sync_call_round_trip {I O : Type} (rpc : Rpc) (k : String)
    (deserI : String → Option I) (serI : I → String) (serO : O → String)
    (f : I → O) (x : I) (hround : deserI (serI x) = some x) :
    (rpc.on_generic_call_fn k deserI serO f).call_raw k (serI x)
      = { log := [], result := .ok (serO (f x)) } := by
  simp [Rpc.on_generic_call_fn, Rpc.add_raw_listener, Rpc.call_raw,
    handler_wrapper, hround]

/-- Witness for C1: a handler computing `x + 1` on naturals with the unary
codec, called with `x = 3`, answers `unarySer 4`. -/
theorem claim_C1_sync_call_round_trip_witness :
    (Rpc.new.on_generic_call_fn "k" unaryDeser unarySer
        (fun x : Nat => x + 1)).call_raw "k" (unarySer 3)
      = { log := [], result := .ok (unarySer 4) } :=
  claim_C1_sync_call_round_trip Rpc.new "k" unaryDeser unarySer
    unarySer (fun x => x + 1) 3 (by decide)

/-- Claim C2: for every key with no registered handler and every payload,
`call_raw` returns the neutral empty-object payload (the literal `"{ }"`,
which is the empty JSON object once insignificant whitespace is removed),
with no log and no panic — and in this total model it cannot block. -/
theorem claim_C2_unknown_key_default (rpc : Rpc) (k p : String)
    (habsent : rpc.calls k = none) :
    rpc.call_raw k p = { log := [], result := .ok emptyCallResponse }
      ∧ emptyCallResponse.data.filter (fun c => c ≠ ' ') = ("\x7b\x7d" : String).data := by
  constructor
  · simp [Rpc.call_raw, habsent]
  · decide

/-- Witness for C2: the freshly constructed dispatcher has no handler under
`"nonexistent"`, and `call_raw` there returns the neutral payload. -/
theorem claim_C2_unknown_key_default_witness :
    Rpc.new.call_raw "nonexistent" "anything"
        = { log := [], result := .ok emptyCallResponse }
      ∧ emptyCallResponse.data.filter (fun c => c ≠ ' ') = ("\x7b\x7d" : String).data :=
  claim_C2_unknown_key_default Rpc.new "nonexistent" "anything" rfl

/-- Claim C8: for a sync handler registered under `k`, calling with a payload
that does not deserialize logs the `"Invalid input req: .."` error and panics
(the `.unwrap()`) — the call's result is `Except.error` and in particular is
never a serialized output payload. -/
theorem claim_C8_bad_payload_is_fatal {I O : Type} (rpc : Rpc) (k : String)
    (deserI : String → Option I) (serO : O → String) (f : I → O) (s : String)
    (hbad : deserI s = none) :
    (rpc.on_generic_call_fn k deserI serO f).call_raw k s
      = { log := ["Invalid input req: " ++ s], result := .error () } := by
  simp [Rpc.on_generic_call_fn, Rpc.add_raw_listener, Rpc.call_raw,
    handler_wrapper, hbad]

/-- Witness for C8: the `x + 1` handler called with the ill-formed payload
`"x"` logs and panics instead of producing any output payload. -/
theorem claim_C8_bad_payload_is_fatal_witness :
    (Rpc.new.on_generic_call_fn "sum" unaryDeser unarySer
        (fun x : Nat => x + 1)).call_raw "sum" "x"
      = { log := ["Invalid input req: " ++ "x"], result := .error () } :=
  claim_C8_bad_payload_is_fatal Rpc.new "sum" unaryDeser unarySer
    (fun x => x + 1) "x" (by decide)

/-! ## Claims C3, C4, C10 -/

/-- Claim C3 (amended): payload decoding happens synchronously on the
emitting thread inside each stored wrapper, before any task is deferred; only
the user handler's run on the already-decoded value is deferred.  Hence a
decode failure of the first listener L1 panics the emission itself: no job is
submitted (L2's task is never created) and no observer is notified — decode
failure is not isolated to L1.  Second conjunct: when decoding succeeds, the
deferred job is exactly the user handler applied to the pre-decoded value. -/
theorem claim_C3_decode_failure_not_isolated {α : Type} (em : EventEmitter)
    (key : String) (ser : α → String) (v : α) (l1 : EvListener)
    (rest : List EvListener) (hls : em.events key = some (l1 :: rest))
    (hfail : l1.handler (ser v) = .error ()) :
    em.emit key ser v = { submitted := [], observerCalls := [], panicked := true }
      ∧ ∀ (E : Type) (deserE : String → Option E) (h : E → List String)
          (data : String) (value : E), deserE data = some value →
          event_handler_wrapper deserE h data = .ok (fun _ => h value) := by
  constructor
  · simp [EventEmitter.emit, EventEmitter.send_raw_event, runListeners, hls, hfail]
  · intro E deserE h data value hdec
    simp [event_handler_wrapper, hdec]

/-- Witness for C3 (amended): a listener with a failing decoder followed by a
sound one, plus one observer; emitting panics, submits nothing, notifies no
observer — and a successful decode defers exactly the user handler. -/
theorem claim_C3_decode_failure_not_isolated_witness :
    (((EventEmitter.new.on_generic_event_fn "e"
          (fun _ : String => (none : Option Unit)) (fun _ => ["L1"])).on_generic_event_fn
        "e" (fun s : String => some s) (fun _ => ["L2"])).add_raw_observer 0).emit
        "e" (fun s : String => s) "p"
      = { submitted := [], observerCalls := [], panicked := true }
    ∧ event_handler_wrapper (fun s : String => some s) (fun _ => ["L2"]) "p"
      = .ok (fun _ => ["L2"]) := by
  have h := claim_C3_decode_failure_not_isolated
    (((EventEmitter.new.on_generic_event_fn "e"
        (fun _ : String => (none : Option Unit)) (fun _ => ["L1"])).on_generic_event_fn
      "e" (fun s : String => some s) (fun _ => ["L2"])).add_raw_observer 0)
    "e" (fun s : String => s) "p"
    { handler := event_handler_wrapper (fun _ : String => (none : Option Unit))
        (fun _ => ["L1"]) }
    [{ handler := event_handler_wrapper (fun s : String => some s) (fun _ => ["L2"]) }]
    rfl rfl
  exact ⟨h.1, h.2 String (fun s => some s) (fun _ => ["L2"]) "p" "p" rfl⟩

/-- Counterexample to C3 as stated: with L1 (decode fails on the payload) and
L2 registered in that order on `"e"` and an observer registered, the emission
panics on the emitting thread: no deferred task is submitted for L2 and the
observer is never notified — decoding is not performed inside the deferred
task and the failure is not isolated to L1. -/
theorem claim_C3_counterexample :
    (((EventEmitter.new.on_generic_event_fn "e"
          (fun _ : String => (none : Option Unit)) (fun _ => ["L1"])).on_generic_event_fn
        "e" (fun s : String => some s) (fun _ => ["L2"])).add_raw_observer 0).observers
        = [0]
    ∧ (((EventEmitter.new.on_generic_event_fn "e"
          (fun _ : String => (none : Option Unit)) (fun _ => ["L1"])).on_generic_event_fn
        "e" (fun s : String => some s) (fun _ => ["L2"])).add_raw_observer 0).emit
        "e" (fun s : String => s) "p"
      = { submitted := [], observerCalls := [], panicked := true } :=
  ⟨rfl, rfl⟩

/-- Claim C4 (amended): provided no listener wrapper under `key` panics while
decoding `ser v` (in particular whenever zero listeners are registered, which
never panics), `emit` serializes the value once and invokes every registered
observer synchronously on the emitting thread, in registration order, each
with `(key, ser v)`, before returning.  If some wrapper panics, the observers
are not reached (see the counterexample). -/
theorem claim_C4_observer_fanout {α : Type} (em : EventEmitter) (key : String)
    (ser : α → String) (v : α) :
    ((em.send_raw_event key (ser v)).2 = false →
        em.emit key ser v
          = { submitted := (em.send_raw_event key (ser v)).1
              observerCalls := em.observers.map (fun o => (o, key, ser v))
              panicked := false })
    ∧ (em.events key = none → (em.send_raw_event key (ser v)).2 = false) := by
  constructor
  · intro hok
    simp [EventEmitter.emit, EventEmitter.send_to_observers, hok]
  · intro habsent
    simp [EventEmitter.send_raw_event, habsent]

/-- Witness for C4: an emitter with zero listeners and one observer; emitting
`"p"` under `"e"` invokes the observer with `("e", "p")` and panics
nowhere. -/
theorem claim_C4_observer_fanout_witness :
    (EventEmitter.new.add_raw_observer 0).emit "e" (fun s : String => s) "p"
      = { submitted := [], observerCalls := [(0, "e", "p")], panicked := false } :=
  (claim_C4_observer_fanout (EventEmitter.new.add_raw_observer 0) "e"
    (fun s : String => s) "p").1 rfl

/-- Counterexample to C4 as stated: with two observers registered and one
listener whose decode fails on the payload, the emission panics and neither
observer is invoked — so "every registered observer is invoked before `emit`
returns" does not hold of every emission. -/
theorem claim_C4_counterexample :
    (((EventEmitter.new.on_generic_event_fn "e"
          (fun _ : String => (none : Option Bool)) (fun _ => [])).add_raw_observer
        0).add_raw_observer 1).observers = [0, 1]
    ∧ (((EventEmitter.new.on_generic_event_fn "e"
          (fun _ : String => (none : Option Bool)) (fun _ => [])).add_raw_observer
        0).add_raw_observer 1).emit "e" (fun s : String => s) "q"
      = { submitted := [], observerCalls := [], panicked := true } :=
  ⟨rfl, rfl⟩

/-- Claim C10: `emit_event` (which obtains its key from `Event::get_key()`)
is observationally equivalent to `emit` at the same key: same serialized
payload to the same listeners, same observer notifications in the same
order, same panic behaviour. -/
theorem claim_C10_emit_event_equiv_emit {α : Type} (em : EventEmitter)
    (get_key : String) (ser : α → String) (v : α) :
    em.emit_event get_key ser v = em.emit get_key ser v := rfl

/-! ## Claims C5, C6, C7, C9 -/

/-- Claim C5: the externally-polled bridge.  `try_handle` on a pending
request consumes it, runs the closure, and publishes `f x` on the capacity-1
response buffer; on an empty request buffer it does nothing (and never
blocks).  Consequently a `call_raw` of `serI x` completes with
`serO (f x)` once the driver has run at least one step after the enqueue,
and is still blocked after zero steps. -/
theorem claim_C5_async_bridge {I O : Type} (deserI : String → Option I)
    (serI : I → String) (serO : O → String) (f : I → O) (x : I) (polls : Nat)
    (hround : deserI (serI x) = some x) (hpolls : 1 ≤ polls) :
    AsyncHandler.try_handle f { req := some x, resp := none }
        = some { req := none, resp := some (f x) }
    ∧ (∀ r : Option O, AsyncHandler.try_handle f { req := none, resp := r }
        = some { req := none, resp := r })
    ∧ async_call_raw deserI serO f polls (serI x) = .completed (serO (f x))
    ∧ async_call_raw deserI serO f 0 (serI x) = .blocked := by
  refine ⟨rfl, fun r => rfl, ?_, ?_⟩
  · obtain ⟨m, rfl⟩ : ∃ m, polls = m + 1 :=
      ⟨polls - 1, (Nat.succ_pred_eq_of_pos hpolls).symm⟩
    simp [async_call_raw, hround, pollDriver, AsyncHandler.try_handle,
      pollDriver_no_request]
  · simp [async_call_raw, hround, pollDriver]

/-- Witness for C5: the successor handler under the unary codec, with input
`2` and one driver step, completes with `unarySer 3`; with zero driver steps
the caller is still blocked. -/
theorem claim_C5_async_bridge_witness :
    AsyncHandler.try_handle (fun x : Nat => x + 1) { req := some 2, resp := none }
        = some { req := none, resp := some 3 }
    ∧ (∀ r : Option Nat,
        AsyncHandler.try_handle (fun x : Nat => x + 1) { req := none, resp := r }
          = some { req := none, resp := r })
    ∧ async_call_raw unaryDeser unarySer (fun x : Nat => x + 1) 1 (unarySer 2)
        = .completed (unarySer 3)
    ∧ async_call_raw unaryDeser unarySer (fun x : Nat => x + 1) 0 (unarySer 2)
        = .blocked :=
  claim_C5_async_bridge unaryDeser unarySer unarySer (fun x => x + 1) 2 1
    (by decide) (by decide)

/-- Claim C6: building a context by `N` registrations leaves the ordered
sequence equal to the registration sequence, so `start` invokes the start
hooks in registration order `1..N` and `stop` invokes the stop hooks in
reverse order `N..1`; an entry with the default (non-overridden) hooks
contributes a no-op to both. -/
theorem claim_C6_start_stop_order (regs : List ServiceEntry) :
    (regs.foldl Context.add_service_internal Context.new).services_order = regs
    ∧ Context.start (regs.foldl Context.add_service_internal Context.new)
        = regs.foldl (fun trace e => trace ++ e.api.startTrace) ([] : List String)
    ∧ Context.stop (regs.foldl Context.add_service_internal Context.new)
        = regs.reverse.foldl (fun trace e => trace ++ e.api.stopTrace) ([] : List String)
    ∧ ({} : ServiceApiM).startTrace = [] ∧ ({} : ServiceApiM).stopTrace = [] := by
  have horder : (regs.foldl Context.add_service_internal Context.new).services_order
      = regs := by
    simpa [Context.new] using foldl_add_service_order regs Context.new
  refine ⟨horder, ?_, ?_, rfl, rfl⟩
  · unfold Context.start
    rw [horder]
  · unfold Context.stop
    rw [horder]

/-- Claim C7: last registration wins in both registries.  For the call
dispatcher, a second handler under the same key replaces the first for all
subsequent `call_raw` lookups.  For the service container, a second
registration under the same type identity replaces the lookup entry returned
by `get_service`, while the previous instance stays in the ordered start/stop
sequence, which then holds that type twice. -/
theorem claim_C7_silent_replacement (rpc : Rpc) (k p : String)
    (l1 l2 : RpcListener) (ctx : Context) (e1 e2 : ServiceEntry)
    (htid : e1.tid = e2.tid) :
    ((rpc.add_raw_listener k l1).add_raw_listener k l2).calls k = some l2
    ∧ ((rpc.add_raw_listener k l1).add_raw_listener k l2).call_raw k p
        = l2.handler p
    ∧ ((ctx.add_service_internal e1).add_service_internal e2).get_service e1.tid
        = some e2
    ∧ ((ctx.add_service_internal e1).add_service_internal e2).services_order
        = ctx.services_order ++ [e1, e2] := by
  refine ⟨by simp [Rpc.add_raw_listener], by simp [Rpc.add_raw_listener, Rpc.call_raw],
    ?_, by simp [Context.add_service_internal]⟩
  simp [Context.add_service_internal, Context.get_service, htid]

/-- Witness for C7: two dispatcher handlers under `"k"` and two container
entries with type identity `7`; the second of each wins the lookup, and the
ordered sequence keeps both container entries. -/
theorem claim_C7_silent_replacement_witness :
    ((Rpc.new.add_raw_listener "k"
          { handler := fun _ => { log := [], result := .ok "first" } }).add_raw_listener
        "k" { handler := fun _ => { log := [], result := .ok "second" } }).calls "k"
      = some { handler := fun _ => { log := [], result := .ok "second" } }
    ∧ ((Rpc.new.add_raw_listener "k"
          { handler := fun _ => { log := [], result := .ok "first" } }).add_raw_listener
        "k" { handler := fun _ => { log := [], result := .ok "second" } }).call_raw
        "k" "p"
      = { log := [], result := .ok "second" }
    ∧ ((Context.new.add_service_internal
          { tid := 7, instanceId := 1, api := {} }).add_service_internal
        { tid := 7, instanceId := 2, api := {} }).get_service 7
      = some { tid := 7, instanceId := 2, api := {} }
    ∧ ((Context.new.add_service_internal
          { tid := 7, instanceId := 1, api := {} }).add_service_internal
        { tid := 7, instanceId := 2, api := {} }).services_order
      = [{ tid := 7, instanceId := 1, api := {} },
         { tid := 7, instanceId := 2, api := {} }] :=
  claim_C7_silent_replacement Rpc.new "k" "p"
    { handler := fun _ => { log := [], result := .ok "first" } }
    { handler := fun _ => { log := [], result := .ok "second" } }
    Context.new { tid := 7, instanceId := 1, api := {} }
    { tid := 7, instanceId := 2, api := {} } rfl

/-- Claim C9: `TaskManager` shutdown is "signal and return": `stop` maps
`TaskContext::stop` over the registry in registry order, so every previously
submitted tracked context's flag reads true afterwards, the registry keeps
the same length (nothing is joined or removed), `run` pushes a fresh
not-interrupted context that is exactly the one handed to the spawned job,
and `run_instant_task` hands its job a fresh not-interrupted context while
leaving the tracked registry untouched (so `stop` can never signal it). -/
theorem claim_C9_cancellation_signal (tm : TaskManager) (job : InstantJob) :
    (TaskManager.stop tm).tasks = tm.tasks.map TaskContext.stop
    ∧ (∀ c ∈ (TaskManager.stop tm).tasks, c.isInterrupted = true)
    ∧ (TaskManager.stop tm).tasks.length = tm.tasks.length
    ∧ tm.run.1.tasks = tm.tasks ++ [TaskContext.new]
    ∧ tm.run.2 = TaskContext.new
    ∧ tm.run_instant_task job = (tm, job TaskContext.new)
    ∧ TaskContext.new.isInterrupted = false := by
  refine ⟨rfl, ?_, by simp [TaskManager.stop], rfl, rfl, rfl, rfl⟩
  intro c hc
  simp only [TaskManager.stop, List.mem_map] at hc
  obtain ⟨a, -, rfl⟩ := hc
  rfl

/-- Witness for C9: a manager holding one freshly submitted tracked context;
after `stop` its flag reads true, and an instant job observes a
not-interrupted context. -/
theorem claim_C9_cancellation_signal_witness :
    (TaskManager.stop { tasks := [TaskContext.new] }).tasks
        = [{ is_interrupted := true }]
    ∧ ({ is_interrupted := true } : TaskContext).isInterrupted = true
    ∧ TaskManager.run_instant_task { tasks := [TaskContext.new] }
          (fun c => [toString c.isInterrupted])
        = ({ tasks := [TaskContext.new] }, [toString false]) := by
  have h := claim_C9_cancellation_signal { tasks := [TaskContext.new] }
    (fun c => [toString c.isInterrupted])
  exact ⟨h.1, h.2.1 { is_interrupted := true } (by decide), h.2.2.2.2.2.1⟩
